import Mathlib

/-!
Shallow embedding of the Command Processing & Weather Caching Service of
the weather_bot repository (src/bot.py), together with proofs of the
spec's claims about it.

Modelling conventions:
- JSON values returned by the weather provider are modelled by `JVal`
  (strings, integers, arrays, objects); dictionary lookup that can raise
  `KeyError` / `TypeError` / `IndexError` in Python is modelled by
  `Option`-returning lookups (the source wraps the whole mapping in a
  broad `except Exception` handler, so any such fault yields `None`).
- The aiocache `cached(ttl=600, cache=Cache.MEMORY, serializer=JsonSerializer())`
  decorator on `get_weather` is embedded explicitly: the cache is an
  association list from key (the city string, verbatim) to an entry
  holding the JSON-serialized return value — which may be null, since the
  decorator writes whatever the wrapped function returned — and an expiry
  instant `insertion_time + 600`.  The decorator's read path returns the
  cached value only when it is non-null and unexpired (`if value is not
  None: return value`); otherwise it invokes the wrapped body exactly once
  and stores the result.  Overwriting a key is modelled by prepending, with
  lookup taking the first match.
- Time is a `Nat` of seconds; an entry is live at instant `now` iff
  `now < expiresAt`.
- Database reads/writes and transport sends can fail; each such outcome is
  an explicit input (`Except`/`Bool`) to the embedded handler, and the
  handler's observable effects (messages delivered, audit rows appended,
  provider fetches performed) are returned as data.
-/

/-- A JSON value as decoded by `response.json()` (numbers restricted to
integers, which covers every payload appearing in the spec's scenarios). -/
inductive JVal where
  | s (v : String)
  | n (v : Int)
  | arr (l : List JVal)
  | obj (l : List (String × JVal))
deriving Repr

/-- `data[key]` on a JSON object: association-list lookup; `none` models the
`KeyError` (or `TypeError` on a non-object) that the source's broad
exception handler turns into a `None` return. -/
def JVal.getKey : JVal → String → Option JVal
  | .obj l, key => (l.find? (fun p => p.1 == key)).map (fun p => p.2)
  | _, _ => none

/-- `data[i]` on a JSON array: `none` models `IndexError`/`TypeError`. -/
def JVal.getIdx : JVal → Nat → Option JVal
  | .arr l, i => l.get? i
  | _, _ => none

/-- Python truthiness of a JSON value, used by the source's
`if weather and weather.get('город')` check. -/
def JVal.truthy : JVal → Bool
  | .s v => !v.isEmpty
  | .n v => v != 0
  | .arr l => !l.isEmpty
  | .obj l => !l.isEmpty

mutual
/-- Python `str()` of a JSON value as interpolated by the source's
f-strings (scalars; containers render via `repr` of their elements). -/
def JVal.render : JVal → String
  | .s v => v
  | .n v => toString v
  | .arr l => "[" ++ String.intercalate ", " (JVal.renderElems l) ++ "]"
  | .obj l => "\x7b" ++ String.intercalate ", " (JVal.renderPairs l) ++ "\x7d"

/-- Python `repr()` of a JSON value (strings quoted), for container
elements. -/
def JVal.renderRepr : JVal → String
  | .s v => "'" ++ v ++ "'"
  | .n v => toString v
  | .arr l => "[" ++ String.intercalate ", " (JVal.renderElems l) ++ "]"
  | .obj l => "\x7b" ++ String.intercalate ", " (JVal.renderPairs l) ++ "\x7d"

def JVal.renderElems : List JVal → List String
  | [] => []
  | v :: rest => JVal.renderRepr v :: JVal.renderElems rest

def JVal.renderPairs : List (String × JVal) → List String
  | [] => []
  | (k, v) :: rest => ("'" ++ k ++ "': " ++ JVal.renderRepr v) :: JVal.renderPairs rest
end

/-- The `weather` dictionary built by `get_weather` on success
(src/bot.py lines 81-88); field names transliterate the Russian keys. -/
structure Weather where
  gorod : JVal
  temperatura : JVal
  oshchushchaetsyaKak : JVal
  opisanie : JVal
  vlazhnost : JVal
  skorostVetra : JVal
deriving Repr

/-- The mapping from a decoded 2xx payload to the `weather` dictionary
(src/bot.py lines 81-88).  Each lookup failure corresponds to an exception
swallowed by the `except Exception` handler, hence `none`. -/
def buildWeather (data : JVal) : Option Weather := do
  let name ← data.getKey "name"
  let main ← data.getKey "main"
  let temp ← main.getKey "temp"
  let feels ← main.getKey "feels_like"
  let warr ← data.getKey "weather"
  let w0 ← warr.getIdx 0
  let descr ← w0.getKey "description"
  let hum ← main.getKey "humidity"
  let wind ← data.getKey "wind"
  let speed ← wind.getKey "speed"
  return ⟨name, temp, feels, descr, hum, speed⟩

/-- Outcome of the single outbound HTTP call in `get_weather`:
either `httpx.RequestError` (timeout, connection error), or a response
with a status code and a decoded JSON body (`none` when `response.json()`
raises on a malformed body). -/
inductive HttpResult where
  | requestError (msg : String)
  | response (status : Nat) (body : Option JVal)
deriving Repr

/-- `response.raise_for_status()` passes exactly on 2xx. -/
def is2xx (status : Nat) : Bool := 200 ≤ status && status < 300

/-- The body of `get_weather` (src/bot.py lines 76-99), without the cache
decorator: maps the HTTP outcome to the `weather` dictionary, or `None` on
non-2xx status, request error, malformed body, or any missing field —
every exception is caught and turned into `None`. -/
def get_weather_raw (res : HttpResult) : Option Weather :=
  match res with
  | .requestError _ => none
  | .response status body =>
    if is2xx status then
      match body with
      | none => none
      | some data => buildWeather data
    else none

/-- A stored cache cell: the JSON-serialized return value of `get_weather`
(`none` is a serialized null) and the instant at which the 600-second TTL
elapses. -/
structure CacheEntry where
  value : Option Weather
  expiresAt : Nat
deriving Repr

/-- The in-memory cache keyed by the verbatim city string. -/
abbrev CacheState := List (String × CacheEntry)

/-- The raw stored entry for a key, ignoring expiry (first match wins;
insertion prepends). -/
def lookupEntry (c : CacheState) (key : String) : Option CacheEntry :=
  (c.find? (fun p => p.1 == key)).map (fun p => p.2)

/-- The decorator's `get_from_cache`: yields the stored value only while
the entry is unexpired; an expired entry, a missing entry, and a stored
null are all indistinguishable (`None` in the source). -/
def cacheLookup (c : CacheState) (key : String) (now : Nat) : Option Weather :=
  match lookupEntry c key with
  | some e => if now < e.expiresAt then e.value else none
  | none => none

/-- `cache.set(key, result, ttl=600)`: overwrite the key's entry (modelled
by prepending, with first-match lookup). -/
def cacheSet (c : CacheState) (key : String) (e : CacheEntry) : CacheState :=
  (key, e) :: c

/-- Result of one call of the cached `get_weather`: the returned value,
the cache afterwards, and how many times the wrapped body (one provider
fetch) ran during the call. -/
structure FetchResult where
  result : Option Weather
  cache : CacheState
  fetchCount : Nat

/-- The cached `get_weather` (src/bot.py lines 66-99): the aiocache
decorator returns a cached non-null unexpired value without running the
body; otherwise it runs the body exactly once and stores its result —
even a `None` result — with a fresh 600-second TTL. -/
def get_weather (c : CacheState) (now : Nat) (city : String) (res : HttpResult) :
    FetchResult :=
  match cacheLookup c city now with
  | some w => ⟨some w, c, 0⟩
  | none =>
    let r := get_weather_raw res
    ⟨r, cacheSet c city ⟨r, now + 600⟩, 1⟩

/-- Python `str.capitalize()` as applied to the weather description
(src/bot.py line 140): first character uppercased, the rest lowercased
(ASCII case mapping, which covers the spec's scenario inputs). -/
def pyCapitalize (s : String) : String :=
  match s.data with
  | [] => ""
  | c :: rest => String.mk (c.toUpper :: rest.map Char.toLower)

/-- The reply template of a successful weather lookup
(src/bot.py lines 136-144). -/
def formatWeather (w : Weather) : String :=
  "🌤 *Погода в " ++ w.gorod.render ++ "*\n" ++
  "🌡 *Температура:* " ++ w.temperatura.render ++ "°C\n" ++
  "🌡 *Ощущается как:* " ++ w.oshchushchaetsyaKak.render ++ "°C\n" ++
  "☁️ *Описание:* " ++ pyCapitalize w.opisanie.render ++ "\n" ++
  "💧 *Влажность:* " ++ w.vlazhnost.render ++ "%\n" ++
  "💨 *Скорость ветра:* " ++ w.skorostVetra.render ++ " м/с\n\n" ++
  "🔹 *Бот создан в качестве теста для компании BobrAi.*"

/-- Reply when the preference read raises (src/bot.py line 114). -/
def settingsErrorMsg : String :=
  "Произошла ошибка при получении настроек. Пожалуйста, попробуйте позже."

/-- Prompt reply when no city is given and none is stored
(src/bot.py line 125). -/
def promptMsg : String := "❓ Укажите город.\nПример: /weather Москва"

/-- Generic failure reply when no weather data was obtained
(src/bot.py line 146). -/
def failMsg : String :=
  "❌ Не удалось получить данные о погоде. Проверьте название города."

/-- Outcome of src/bot.py lines 108-131: the preference read together with
the argument inspection either aborts with the settings-error reply,
aborts with the prompt reply, or resolves a city string. -/
inductive Resolution where
  | dbError
  | prompt
  | city (c : String)
deriving Repr, DecidableEq

/-- City resolution in `weather_command` (src/bot.py lines 108-131).
The preference store is read first, unconditionally; a read failure aborts
regardless of the arguments.  Only then: non-empty args join with spaces;
empty args fall back to the stored city when it is present and truthy,
else to the prompt. -/
def resolveCity (args : List String) (pref : Except Unit (Option String)) :
    Resolution :=
  match pref with
  | .error _ => .dbError
  | .ok setting =>
    if args.isEmpty then
      match setting with
      | some c => if c.isEmpty then .prompt else .city c
      | none => .prompt
    else .city (String.intercalate " " args)

/-- One row of the `logs` table as written by `weather_command`
(src/bot.py lines 161-165); `id` and `timestamp` are store-assigned and
not modelled. -/
structure LogRecord where
  user_id : Int
  command : String
  response : String
deriving Repr, DecidableEq

/-- The process-wide mutable state `weather_command` touches: the weather
cache, the current time, and the audit log table. -/
structure WxState where
  cache : CacheState
  now : Nat
  auditLog : List LogRecord

/-- Inputs of one `weather_command` invocation, with every external
outcome explicit: the preference read (`pref`), the provider's behaviour
should a fetch occur (`httpRes`), whether the transport delivers the main
reply (`sendOk`), and whether the audit append commits (`logOk`). -/
structure WxInput where
  userId : Int
  args : List String
  rawText : String
  pref : Except Unit (Option String)
  httpRes : HttpResult
  sendOk : Bool
  logOk : Bool

/-- Observable effects of one `weather_command` invocation: the messages
actually delivered to the user, the state afterwards, and the number of
provider fetches performed. -/
structure WxOutput where
  sent : List String
  state : WxState
  fetchCount : Nat

/-- `weather_command` (src/bot.py lines 102-172).  Resolve the city (a
settings-error or prompt reply short-circuits with no fetch and no audit
write); fetch through the cached `get_weather`; format the success reply
when the result is truthy in its city field, else the generic failure
reply; send the reply — a delivery failure returns early, skipping the
audit write; finally append the audit row, a failure of which is swallowed. -/
def weather_command (st : WxState) (inp : WxInput) : WxOutput :=
  match resolveCity inp.args inp.pref with
  | .dbError => ⟨[settingsErrorMsg], st, 0⟩
  | .prompt => ⟨[promptMsg], st, 0⟩
  | .city city =>
    let fr := get_weather st.cache st.now city inp.httpRes
    let message :=
      match fr.result with
      | some w => if w.gorod.truthy then formatWeather w else failMsg
      | none => failMsg
    let st1 : WxState := ⟨fr.cache, st.now, st.auditLog⟩
    if inp.sendOk then
      let st2 : WxState :=
        if inp.logOk then
          ⟨st1.cache, st1.now,
            st1.auditLog ++ [⟨inp.userId, inp.rawText, message⟩]⟩
        else st1
      ⟨[message], st2, fr.fetchCount⟩
    else
      ⟨[], st1, fr.fetchCount⟩

/-- The `user_settings` table: rows of (user_id, city); the primary key
makes at most one row per user. -/
abbrev PrefStore := List (Int × String)

/-- `db.query(UserSetting).filter(UserSetting.user_id == user_id).first()`,
projected to the stored city (src/bot.py lines 110, 186, 210). -/
def prefGet (db : PrefStore) (uid : Int) : Option String :=
  (db.find? (fun p => p.1 == uid)).map (fun p => p.2)

/-- The upsert inside `set_city` (src/bot.py lines 186-194): overwrite the
existing row's city when one exists, else insert a new row. -/
def upsertCity (db : PrefStore) (uid : Int) (city : String) : PrefStore :=
  if (db.find? (fun p => p.1 == uid)).isSome then
    db.map (fun p => if p.1 == uid then (p.1, city) else p)
  else
    db ++ [(uid, city)]

/-- Result of one `set_city` invocation: the table afterwards and the
reply sent. -/
structure SetCityOutput where
  db : PrefStore
  sent : List String

/-- `set_city` (src/bot.py lines 175-201): empty args prompt for a city;
otherwise the joined args are upserted — unless the database operation
raises (`dbOk = false`), in which case an error reply is sent and the
table is untouched. -/
def set_city (db : PrefStore) (uid : Int) (args : List String) (dbOk : Bool) :
    SetCityOutput :=
  if args.isEmpty then
    ⟨db, ["❓ Пожалуйста, укажите город.\nПример: /setcity Москва"]⟩
  else
    let city := String.intercalate " " args
    if dbOk then
      ⟨upsertCity db uid city, ["✅ Город установлен на " ++ city]⟩
    else
      ⟨db, ["❌ Произошла ошибка при установке города. Пожалуйста, попробуйте позже."]⟩

/-- `get_city` (src/bot.py lines 204-222): report the stored city, its
absence, or a settings error when the read raises. -/
def get_city (db : PrefStore) (uid : Int) (dbOk : Bool) : String :=
  if dbOk then
    match prefGet db uid with
    | some c => "📍 Ваш установленный город: " ++ c
    | none => "❌ Город не установлен. Используйте /setcity <город> для установки."
  else
    "❌ Произошла ошибка при получении настроек. Пожалуйста, попробуйте позже."

/-- `needle` occurs as a contiguous character run starting at the front of
`hay`. -/
def listStartsWith : List Char → List Char → Bool
  | [], _ => true
  | _ :: _, [] => false
  | a :: as, b :: bs => a == b && listStartsWith as bs

/-- `needle` occurs as a contiguous character run somewhere in `hay`. -/
def listHasSub (needle : List Char) : List Char → Bool
  | [] => listStartsWith needle []
  | b :: bs => listStartsWith needle (b :: bs) || listHasSub needle bs

/-- Substring occurrence on strings (Python's `needle in hay`). -/
def strHasSub (hay needle : String) : Bool := listHasSub needle.data hay.data

/-- Number of `user_settings` rows for a given user. -/
def countRows (db : PrefStore) (uid : Int) : Nat :=
  (db.filter (fun p => p.1 == uid)).length

set_option maxRecDepth 100000

/-- The provider payload of the spec's Moscow scenario. -/
def moscowData : JVal :=
  .obj [("name", .s "Moscow"),
        ("main", .obj [("temp", .n 5), ("feels_like", .n 3), ("humidity", .n 40)]),
        ("weather", .arr [.obj [("description", .s "clear")]]),
        ("wind", .obj [("speed", .n 2)])]

/-- The `weather` dictionary `get_weather` builds from `moscowData`. -/
def moscowWeather : Weather := ⟨.s "Moscow", .n 5, .n 3, .s "clear", .n 40, .n 2⟩

/-- The reply `weather_command` formats for the Moscow scenario. -/
def moscowReply : String := formatWeather moscowWeather

/-- The `weather Moscow` invocation of the spec's scenario: user 42, a 2xx
provider response carrying `moscowData`, successful send and audit append,
empty cache. -/
def moscowInput : WxInput :=
  ⟨42, ["Moscow"], "/weather Moscow", .ok none, .response 200 (some moscowData),
    true, true⟩

/-- C4: a weather command with empty args from a user with no stored
preference delivers exactly the prompt reply; no provider fetch happens,
the cache is untouched and no audit row is written. -/
theorem weather_prompt_no_fetch (st : WxState) (inp : WxInput)
    (hargs : inp.args = []) (hpref : inp.pref = .ok none) :
    (weather_command st inp).sent = [promptMsg] ∧
    (weather_command st inp).fetchCount = 0 ∧
    (weather_command st inp).state.cache = st.cache ∧
    (weather_command st inp).state.auditLog = st.auditLog := by
  simp [weather_command, resolveCity, hargs, hpref]

/-- C4 witness: the prompt short-circuit at a concrete invocation. -/
theorem weather_prompt_no_fetch_witness :
    (weather_command ⟨[], 0, []⟩
        ⟨7, [], "/weather", .ok none, .requestError "unused", true, true⟩).sent
      = [promptMsg] ∧
    (weather_command ⟨[], 0, []⟩
        ⟨7, [], "/weather", .ok none, .requestError "unused", true, true⟩).fetchCount = 0 ∧
    (weather_command ⟨[], 0, []⟩
        ⟨7, [], "/weather", .ok none, .requestError "unused", true, true⟩).state.cache = [] ∧
    (weather_command ⟨[], 0, []⟩
        ⟨7, [], "/weather", .ok none, .requestError "unused", true, true⟩).state.auditLog = [] :=
  weather_prompt_no_fetch ⟨[], 0, []⟩
    ⟨7, [], "/weather", .ok none, .requestError "unused", true, true⟩ rfl rfl

/-- C6: when the fetch for the resolved city fails, the delivered reply is
the fixed generic failure message — a constant mentioning no provider
error detail — and the audit row written (when the append commits) stores
exactly that generic message. -/
theorem weather_failure_generic_reply (st : WxState) (inp : WxInput) (city : String)
    (hres : resolveCity inp.args inp.pref = .city city)
    (hfail : (get_weather st.cache st.now city inp.httpRes).result = none)
    (hsend : inp.sendOk = true) :
    (weather_command st inp).sent = [failMsg] ∧
    (weather_command st inp).state.auditLog =
      st.auditLog ++
        (if inp.logOk then [⟨inp.userId, inp.rawText, failMsg⟩] else []) := by
  simp only [weather_command, hres, hfail, hsend, if_true]
  cases h : inp.logOk <;> simp [h]

/-- C6 witness: a timed-out provider call yields the generic failure reply
and an audit row holding that same text. -/
theorem weather_failure_generic_reply_witness :
    (weather_command ⟨[], 0, []⟩
        ⟨9, ["Paris"], "/weather Paris", .ok none, .requestError "timeout", true, true⟩).sent
      = [failMsg] ∧
    (weather_command ⟨[], 0, []⟩
        ⟨9, ["Paris"], "/weather Paris", .ok none, .requestError "timeout", true, true⟩).state.auditLog
      = [] ++ (if true then [⟨9, "/weather Paris", failMsg⟩] else []) :=
  weather_failure_generic_reply ⟨[], 0, []⟩
    ⟨9, ["Paris"], "/weather Paris", .ok none, .requestError "timeout", true, true⟩
    "Paris" rfl rfl rfl

/-- C7: when the transport fails to deliver the reply, `weather_command`
returns before the audit step: the audit log is left exactly as it was. -/
theorem send_failure_no_audit (st : WxState) (inp : WxInput)
    (hsend : inp.sendOk = false) :
    (weather_command st inp).state.auditLog = st.auditLog := by
  unfold weather_command
  cases resolveCity inp.args inp.pref <;> simp [hsend]

/-- C7 witness: a failed delivery at a concrete invocation leaves the
audit log empty. -/
theorem send_failure_no_audit_witness :
    (weather_command ⟨[], 0, []⟩
        ⟨5, ["Paris"], "/weather Paris", .ok none, .response 200 (some moscowData),
          false, true⟩).state.auditLog = [] :=
  send_failure_no_audit ⟨[], 0, []⟩
    ⟨5, ["Paris"], "/weather Paris", .ok none, .response 200 (some moscowData),
      false, true⟩ rfl

/-- C8: once the reply was delivered, a failing audit append is swallowed:
the messages delivered and the fetches performed are identical to the
successful-append run, and the audit log is simply left unchanged — the
reply is neither altered nor retracted and no error reaches the
transport. -/
theorem audit_failure_silent (st : WxState) (inp : WxInput)
    (hsend : inp.sendOk = true) (hlog : inp.logOk = false) :
    (weather_command st inp).sent =
      (weather_command st { inp with logOk := true }).sent ∧
    (weather_command st inp).fetchCount =
      (weather_command st { inp with logOk := true }).fetchCount ∧
    (weather_command st inp).state.auditLog = st.auditLog := by
  unfold weather_command
  cases h : resolveCity inp.args inp.pref <;> simp [hsend, hlog]

/-- C8 witness: a failing audit append at a concrete successful fetch. -/
theorem audit_failure_silent_witness :
    (weather_command ⟨[], 0, []⟩
        ⟨3, ["Moscow"], "/weather Moscow", .ok none,
          .response 200 (some moscowData), true, false⟩).sent =
      (weather_command ⟨[], 0, []⟩
          ⟨3, ["Moscow"], "/weather Moscow", .ok none,
            .response 200 (some moscowData), true, true⟩).sent ∧
    (weather_command ⟨[], 0, []⟩
        ⟨3, ["Moscow"], "/weather Moscow", .ok none,
          .response 200 (some moscowData), true, false⟩).fetchCount =
      (weather_command ⟨[], 0, []⟩
          ⟨3, ["Moscow"], "/weather Moscow", .ok none,
            .response 200 (some moscowData), true, true⟩).fetchCount ∧
    (weather_command ⟨[], 0, []⟩
        ⟨3, ["Moscow"], "/weather Moscow", .ok none,
          .response 200 (some moscowData), true, false⟩).state.auditLog = [] :=
  audit_failure_silent ⟨[], 0, []⟩
    ⟨3, ["Moscow"], "/weather Moscow", .ok none,
      .response 200 (some moscowData), true, false⟩ rfl rfl

/-- Unfolding equation: on a cache miss (or expired / null entry) the
decorator runs the body and stores its result. -/
theorem get_weather_eq_miss (c : CacheState) (now : Nat) (city : String)
    (res : HttpResult) (hmiss : cacheLookup c city now = none) :
    get_weather c now city res =
      ⟨get_weather_raw res, cacheSet c city ⟨get_weather_raw res, now + 600⟩, 1⟩ := by
  simp [get_weather, hmiss]

/-- Unfolding equation: on a live non-null entry the decorator answers
from the cache without running the body. -/
theorem get_weather_eq_hit (c : CacheState) (now : Nat) (city : String)
    (res : HttpResult) (w : Weather) (hhit : cacheLookup c city now = some w) :
    get_weather c now city res = ⟨some w, c, 0⟩ := by
  simp [get_weather, hhit]

/-- Looking up a key right after `cacheSet` yields the new entry. -/
theorem cacheLookup_set_self (c : CacheState) (key : String) (v : Option Weather)
    (exp t : Nat) :
    cacheLookup (cacheSet c key ⟨v, exp⟩) key t = if t < exp then v else none := by
  simp [cacheLookup, cacheSet, lookupEntry, List.find?]

/-- C1 counterexample: after a failed fetch the cache is not left without
an entry for the city — the decorator stores the `None` result, so a
(null-valued) entry for the city is present. -/
theorem get_weather_failure_cached_null_entry :
    lookupEntry (get_weather [] 0 "Paris" (.requestError "timeout")).cache "Paris"
      ≠ none := by
  simp [get_weather, lookupEntry, cacheLookup, cacheSet]

/-- C1 (amended): on a miss the cached `get_weather` runs the body exactly
once and returns its result; when the fetch fails, the entry stored for
the city is null and is treated as a miss by every later lookup, so any
subsequent call for that city — at any time, under any provider
behaviour — performs the fetch again. -/
theorem get_weather_failure_not_reused (c : CacheState) (now t : Nat)
    (city : String) (res res2 : HttpResult)
    (hmiss : cacheLookup c city now = none) :
    (get_weather c now city res).fetchCount = 1 ∧
    (get_weather c now city res).result = get_weather_raw res ∧
    (get_weather_raw res = none →
      cacheLookup (get_weather c now city res).cache city t = none ∧
      (get_weather (get_weather c now city res).cache t city res2).fetchCount = 1) := by
  rw [get_weather_eq_miss c now city res hmiss]
  refine ⟨rfl, rfl, ?_⟩
  intro hfail
  rw [hfail]
  have hlook : cacheLookup (cacheSet c city ⟨none, now + 600⟩) city t = none := by
    rw [cacheLookup_set_self]
    exact ite_self none
  exact ⟨hlook, by rw [get_weather_eq_miss _ t city res2 hlook]⟩

/-- C1 witness: a concrete timed-out fetch on an empty cache. -/
theorem get_weather_failure_not_reused_witness :
    (get_weather [] 0 "Paris" (.requestError "timeout")).fetchCount = 1 ∧
    (get_weather [] 0 "Paris" (.requestError "timeout")).result =
      get_weather_raw (.requestError "timeout") ∧
    (get_weather_raw (.requestError "timeout") = none →
      cacheLookup (get_weather [] 0 "Paris" (.requestError "timeout")).cache "Paris" 700
        = none ∧
      (get_weather (get_weather [] 0 "Paris" (.requestError "timeout")).cache 700
          "Paris" (.requestError "again")).fetchCount = 1) :=
  get_weather_failure_not_reused [] 0 700 "Paris" (.requestError "timeout")
    (.requestError "again") rfl

/-- C2: after a successful fetch inserts a snapshot, a second call within
600 seconds of the insertion is answered from the cache — the body is not
run — and returns the same snapshot; a call once the 600-second TTL has
elapsed runs the body again. -/
theorem get_weather_ttl (c : CacheState) (now1 now2 now3 : Nat) (city : String)
    (res1 res2 res3 : HttpResult) (w : Weather)
    (hmiss : cacheLookup c city now1 = none)
    (hsucc : get_weather_raw res1 = some w)
    (hin : now2 < now1 + 600) (hout : now1 + 600 ≤ now3) :
    (get_weather c now1 city res1).fetchCount = 1 ∧
    (get_weather c now1 city res1).result = some w ∧
    (get_weather (get_weather c now1 city res1).cache now2 city res2).fetchCount = 0 ∧
    (get_weather (get_weather c now1 city res1).cache now2 city res2).result = some w ∧
    (get_weather (get_weather c now1 city res1).cache now3 city res3).fetchCount = 1 := by
  rw [get_weather_eq_miss c now1 city res1 hmiss, hsucc]
  have hhit : cacheLookup (cacheSet c city ⟨some w, now1 + 600⟩) city now2 = some w := by
    rw [cacheLookup_set_self, if_pos hin]
  have hexp : cacheLookup (cacheSet c city ⟨some w, now1 + 600⟩) city now3 = none := by
    rw [cacheLookup_set_self, if_neg (Nat.not_lt.mpr hout)]
  rw [get_weather_eq_hit _ now2 city res2 w hhit, get_weather_eq_miss _ now3 city res3 hexp]
  exact ⟨rfl, rfl, rfl, rfl, rfl⟩

/-- C2 witness: a successful Moscow fetch at time 0 is served from cache
at time 10 and fetched anew at time 600. -/
theorem get_weather_ttl_witness :
    (get_weather [] 0 "Moscow" (.response 200 (some moscowData))).fetchCount = 1 ∧
    (get_weather [] 0 "Moscow" (.response 200 (some moscowData))).result =
      some moscowWeather ∧
    (get_weather (get_weather [] 0 "Moscow" (.response 200 (some moscowData))).cache
        10 "Moscow" (.requestError "later")).fetchCount = 0 ∧
    (get_weather (get_weather [] 0 "Moscow" (.response 200 (some moscowData))).cache
        10 "Moscow" (.requestError "later")).result = some moscowWeather ∧
    (get_weather (get_weather [] 0 "Moscow" (.response 200 (some moscowData))).cache
        600 "Moscow" (.requestError "later")).fetchCount = 1 :=
  get_weather_ttl [] 0 10 600 "Moscow" (.response 200 (some moscowData))
    (.requestError "later") (.requestError "later") moscowWeather rfl rfl
    (by norm_num) (by norm_num)

/-- C3 counterexample: with the non-empty argument list `["Paris"]` the
resolution is not `join(args)` when the preference read fails — the store
is consulted (and its failure decides the outcome) before the arguments
are ever examined, and the command performs no fetch. -/
theorem resolveCity_db_first :
    resolveCity ["Paris"] (.error ()) ≠ .city "Paris" ∧
    resolveCity ["Paris"] (.error ()) = .dbError ∧
    (weather_command ⟨[], 0, []⟩
        ⟨1, ["Paris"], "/weather Paris", .error (),
          .response 200 (some moscowData), true, true⟩).fetchCount = 0 ∧
    (weather_command ⟨[], 0, []⟩
        ⟨1, ["Paris"], "/weather Paris", .error (),
          .response 200 (some moscowData), true, true⟩).sent
      = [settingsErrorMsg] := by
  refine ⟨by decide, rfl, rfl, rfl⟩

/-- C3 (amended): the preference store is read for every weather command
before the arguments are examined; a failed read short-circuits with the
settings-error resolution regardless of the arguments.  Given a successful
read: non-empty args resolve to `join(args, " ")` whatever is stored;
empty args use the stored city when present and non-empty, and prompt
otherwise. -/
theorem resolveCity_spec (args : List String) (c : String) :
    resolveCity args (.error ()) = .dbError ∧
    (args ≠ [] → ∀ s : Option String,
      resolveCity args (.ok s) = .city (String.intercalate " " args)) ∧
    resolveCity [] (.ok (some c)) = (if c.isEmpty then .prompt else .city c) ∧
    resolveCity [] (.ok none) = .prompt := by
  refine ⟨rfl, ?_, ?_, rfl⟩
  · intro hne s
    simp [resolveCity, hne]
  · simp [resolveCity]

/-- C3 witness: concrete resolutions for `["New", "York"]` and a stored
`"Paris"`. -/
theorem resolveCity_spec_witness :
    resolveCity ["New", "York"] (.error ()) = .dbError ∧
    resolveCity ["New", "York"] (.ok (some "Paris")) = .city "New York" ∧
    resolveCity [] (.ok (some "Paris")) =
      (if "Paris".isEmpty then .prompt else .city "Paris") ∧
    resolveCity [] (.ok none) = .prompt := by
  have h := resolveCity_spec ["New", "York"] "Paris"
  exact ⟨h.1, h.2.1 (by decide) (some "Paris"), h.2.2.1, h.2.2.2⟩

/-- C9 counterexample: in the Moscow scenario the delivered reply does not
contain the substring `clear` — the formatter capitalizes the description,
so only `Clear` occurs. -/
theorem moscow_reply_no_lowercase_clear :
    strHasSub ((weather_command ⟨[], 0, []⟩ moscowInput).sent.getD 0 "") "clear"
      = false := by rfl

/-- C9 (amended): the Moscow scenario delivers exactly the formatted
reply, which contains the substrings `Moscow`, `5`, `3`, `Clear` (the
description, capitalized by the formatter), `40` and `2`, and appends one
audit record whose response field is exactly that reply text. -/
theorem weather_moscow_scenario :
    (weather_command ⟨[], 0, []⟩ moscowInput).sent = [moscowReply] ∧
    strHasSub moscowReply "Moscow" = true ∧
    strHasSub moscowReply "5" = true ∧
    strHasSub moscowReply "3" = true ∧
    strHasSub moscowReply "Clear" = true ∧
    strHasSub moscowReply "40" = true ∧
    strHasSub moscowReply "2" = true ∧
    (weather_command ⟨[], 0, []⟩ moscowInput).state.auditLog
      = [⟨42, "/weather Moscow", moscowReply⟩] := by
  exact ⟨rfl, rfl, rfl, rfl, rfl, rfl, rfl, rfl⟩

/-- All six provider fields the mapping reads are present in the decoded
payload: `name`, `main.temp`, `main.feels_like`, `weather[0].description`,
`main.humidity`, `wind.speed`. -/
def hasAllFields (data : JVal) : Bool :=
  (data.getKey "name").isSome &&
  (match data.getKey "main" with
   | none => false
   | some main =>
     (main.getKey "temp").isSome && (main.getKey "feels_like").isSome &&
     (main.getKey "humidity").isSome) &&
  (match data.getKey "weather" with
   | none => false
   | some warr =>
     match warr.getIdx 0 with
     | none => false
     | some w0 => (w0.getKey "description").isSome) &&
  (match data.getKey "wind" with
   | none => false
   | some wind => (wind.getKey "speed").isSome)

/-- A provider outcome is well-formed when the status is 2xx, the body
decodes, and every expected field is present. -/
def wellFormed (res : HttpResult) : Bool :=
  match res with
  | .requestError _ => false
  | .response status body =>
    is2xx status &&
      (match body with
       | none => false
       | some data => hasAllFields data)

/-- The field mapping succeeds exactly when every expected field is
present in the payload. -/
theorem buildWeather_isSome (data : JVal) :
    (buildWeather data).isSome = hasAllFields data := by
  unfold buildWeather hasAllFields
  cases hn : data.getKey "name" with
  | none => simp [hn]
  | some name =>
  cases hm : data.getKey "main" with
  | none => simp [hn, hm]
  | some main =>
  cases ht : main.getKey "temp" with
  | none => simp [hn, hm, ht]
  | some temp =>
  cases hf : main.getKey "feels_like" with
  | none => simp [hn, hm, ht, hf]
  | some feels =>
  cases hw : data.getKey "weather" with
  | none => simp [hn, hm, ht, hf, hw]
  | some warr =>
  cases h0 : warr.getIdx 0 with
  | none => simp [hn, hm, ht, hf, hw, h0]
  | some w0 =>
  cases hd : w0.getKey "description" with
  | none => simp [hn, hm, ht, hf, hw, h0, hd]
  | some descr =>
  cases hh : main.getKey "humidity" with
  | none => simp [hn, hm, ht, hf, hw, h0, hd, hh]
  | some hum =>
  cases hwd : data.getKey "wind" with
  | none => simp [hn, hm, ht, hf, hw, h0, hd, hh, hwd]
  | some wind =>
  cases hs : wind.getKey "speed" with
  | none => simp [hn, hm, ht, hf, hw, h0, hd, hh, hwd, hs]
  | some speed => simp [hn, hm, ht, hf, hw, h0, hd, hh, hwd, hs]

/-- C10: for every provider outcome — request error, non-2xx status,
malformed body, or a 2xx payload with or without the expected fields —
`get_weather`'s body returns a value (the mapped dictionary exactly on a
well-formed success, `None` otherwise); being a total Lean function of the
outcome, it propagates no exception to its caller. -/
theorem get_weather_raw_total (res : HttpResult) :
    (get_weather_raw res).isSome = wellFormed res := by
  cases res with
  | requestError m => rfl
  | response status body =>
    cases body with
    | none =>
      cases h : is2xx status with
      | false => simp [get_weather_raw, wellFormed, h]
      | true => simp [get_weather_raw, wellFormed, h]
    | some data =>
      cases h : is2xx status with
      | false => simp [get_weather_raw, wellFormed, h]
      | true => simp [get_weather_raw, wellFormed, h, buildWeather_isSome]

/-- Overwriting every row of a user rewrites the looked-up city, provided
some row for that user exists. -/
theorem prefGet_map_overwrite (l : PrefStore) (u : Int) (b : String)
    (h : (l.find? (fun p => p.1 == u)).isSome) :
    prefGet (l.map (fun p => if p.1 == u then (p.1, b) else p)) u = some b := by
  induction l with
  | nil => simp [List.find?] at h
  | cons hd tl ih =>
    obtain ⟨k, v⟩ := hd
    by_cases hk : (k == u)
    · simp [prefGet, List.find?, hk]
    · simp only [List.find?, hk] at h
      have htl := ih (by simpa using h)
      simpa [prefGet, List.find?, hk] using htl

/-- `find?` skips a first block in which nothing matches. -/
theorem find?_append_of_none {α : Type} (p : α → Bool) (l1 l2 : List α)
    (h : l1.find? p = none) : (l1 ++ l2).find? p = l2.find? p := by
  induction l1 with
  | nil => rfl
  | cons hd tl ih =>
    by_cases hk : p hd
    · simp [List.find?, hk] at h
    · simp only [List.find?, hk] at h
      simpa [List.find?, hk] using ih h

/-- The upsert of `set_city` makes the written city the one retrieved for
that user. -/
theorem upsert_prefGet (db : PrefStore) (u : Int) (a : String) :
    prefGet (upsertCity db u a) u = some a := by
  unfold upsertCity
  by_cases h : (db.find? (fun p => p.1 == u)).isSome
  · rw [if_pos h]
    exact prefGet_map_overwrite db u a h
  · rw [if_neg h]
    have hnone : db.find? (fun p => p.1 == u) = none :=
      Option.not_isSome_iff_eq_none.mp h
    simp [prefGet, find?_append_of_none _ db [(u, a)] hnone, List.find?]

/-- A successful lookup means a row for the user exists. -/
theorem prefGet_isSome_find? (l : PrefStore) (u : Int) (a : String)
    (h : prefGet l u = some a) : (l.find? (fun p => p.1 == u)).isSome := by
  unfold prefGet at h
  cases hf : l.find? (fun p => p.1 == u) with
  | none => rw [hf] at h; simp at h
  | some p => rfl

/-- Every row of an upsert's result for the written user carries the
written city. -/
theorem upsert_all_rows (db : PrefStore) (u : Int) (a : String) :
    ∀ p ∈ upsertCity db u a, p.1 == u → p.2 = a := by
  unfold upsertCity
  by_cases h : (db.find? (fun p => p.1 == u)).isSome
  · rw [if_pos h]
    intro p hp hk
    obtain ⟨q, hq, hfq⟩ := List.mem_map.mp hp
    by_cases hqk : (q.1 == u)
    · rw [if_pos hqk] at hfq
      rw [← hfq]
    · rw [if_neg hqk] at hfq
      rw [← hfq] at hk
      exact absurd hk hqk
  · rw [if_neg h]
    have hnone : db.find? (fun p => p.1 == u) = none :=
      Option.not_isSome_iff_eq_none.mp h
    intro p hp hk
    rcases List.mem_append.mp hp with hdb | hsing
    · have := List.find?_eq_none.mp hnone p hdb
      exact absurd hk this
    · rcases List.mem_singleton.mp hsing with rfl
      rfl

/-- Rewriting a user's rows to the city they already hold changes
nothing. -/
theorem map_fix_of_rows (l : PrefStore) (u : Int) (a : String)
    (h : ∀ p ∈ l, p.1 == u → p.2 = a) :
    l.map (fun p => if p.1 == u then (p.1, a) else p) = l := by
  induction l with
  | nil => rfl
  | cons hd tl ih =>
    have h1 : (if hd.1 == u then (hd.1, a) else hd) = hd := by
      by_cases hk : (hd.1 == u)
      · rw [if_pos hk]
        have h2 := h hd (List.mem_cons_self hd tl) hk
        rw [← h2]
      · rw [if_neg hk]
    rw [List.map_cons, h1, ih (fun p hp hk => h p (List.mem_cons_of_mem hd hp) hk)]

/-- Overwriting cities never changes how many rows a user has. -/
theorem countRows_map_overwrite (db : PrefStore) (u u' : Int) (a : String) :
    countRows (db.map (fun p => if p.1 == u then (p.1, a) else p)) u'
      = countRows db u' := by
  unfold countRows
  rw [List.filter_map, List.length_map]
  congr 1
  apply List.filter_congr
  intro p _
  by_cases hk : (p.1 == u)
  · rw [Function.comp_apply, if_pos hk]
  · rw [Function.comp_apply, if_neg hk]

/-- Appending one row adds one to exactly that user's row count. -/
theorem countRows_append (db : PrefStore) (u u' : Int) (a : String) :
    countRows (db ++ [(u, a)]) u'
      = countRows db u' + (if u == u' then 1 else 0) := by
  by_cases h : (u == u') <;>
    simp [countRows, List.filter_append, List.filter, h]

/-- A user with no row has row count zero. -/
theorem countRows_zero_of_none (db : PrefStore) (u : Int)
    (h : db.find? (fun p => p.1 == u) = none) : countRows db u = 0 := by
  induction db with
  | nil => rfl
  | cons hd tl ih =>
    obtain ⟨k, v⟩ := hd
    by_cases hk : (k == u)
    · simp [List.find?, hk] at h
    · have hk' : (k == u) = false := by simpa using hk
      simp only [List.find?, hk'] at h
      simp only [countRows, List.filter_cons, hk', Bool.false_eq_true, if_false]
      exact ih h

/-- Unfolding equation for the upsert when a row exists. -/
theorem upsertCity_pos (l : PrefStore) (u : Int) (c : String)
    (h : (l.find? (fun p => p.1 == u)).isSome) :
    upsertCity l u c = l.map (fun p => if p.1 == u then (p.1, c) else p) := by
  unfold upsertCity
  rw [if_pos h]

/-- Unfolding equation for the upsert when no row exists. -/
theorem upsertCity_neg (l : PrefStore) (u : Int) (c : String)
    (h : l.find? (fun p => p.1 == u) = none) :
    upsertCity l u c = l ++ [(u, c)] := by
  unfold upsertCity
  rw [h]
  simp

/-- C5: on a table with at most one row per user, `setCity(u, a)` makes
`getCity(u)` return `a`; a second `setCity(u, b)` leaves exactly `b`
retrievable; repeating the identical `setCity` is a no-op on the table;
and the upsert preserves the at-most-one-row-per-user invariant. -/
theorem pref_upsert_spec (db : PrefStore) (u u' : Int) (a b : String)
    (hinv : ∀ v : Int, countRows db v ≤ 1) :
    prefGet (upsertCity db u a) u = some a ∧
    prefGet (upsertCity (upsertCity db u a) u b) u = some b ∧
    upsertCity (upsertCity db u a) u a = upsertCity db u a ∧
    countRows (upsertCity db u a) u' ≤ 1 := by
  have h1 := upsert_prefGet db u a
  have hsome := prefGet_isSome_find? (upsertCity db u a) u a h1
  refine ⟨h1, ?_, ?_, ?_⟩
  · rw [upsertCity_pos (upsertCity db u a) u b hsome]
    exact prefGet_map_overwrite _ u b hsome
  · rw [upsertCity_pos (upsertCity db u a) u a hsome]
    exact map_fix_of_rows _ u a (upsert_all_rows db u a)
  · by_cases h : (db.find? (fun p => p.1 == u)).isSome
    · rw [upsertCity_pos db u a h, countRows_map_overwrite]
      exact hinv u'
    · have hnone : db.find? (fun p => p.1 == u) = none :=
        Option.not_isSome_iff_eq_none.mp h
      rw [upsertCity_neg db u a hnone, countRows_append]
      by_cases he : (u == u')
      · rw [if_pos he]
        have hu : u = u' := eq_of_beq he
        rw [← hu, countRows_zero_of_none db u hnone]
      · rw [if_neg he]
        simpa using hinv u'

/-- C5 witness: setting `"Paris"` then `"London"` for user 1 on an empty
table. -/
theorem pref_upsert_spec_witness :
    prefGet (upsertCity [] 1 "Paris") 1 = some "Paris" ∧
    prefGet (upsertCity (upsertCity [] 1 "Paris") 1 "London") 1 = some "London" ∧
    upsertCity (upsertCity [] 1 "Paris") 1 "Paris" = upsertCity [] 1 "Paris" ∧
    countRows (upsertCity [] 1 "Paris") 2 ≤ 1 :=
  pref_upsert_spec [] 1 2 "Paris" "London" (fun v => by simp [countRows])
